import Mathlib

/-!
Verification of the form-intake backend (`src/main.py`).

The program is a single FastAPI endpoint `POST /submit-form/` that
validates a `FormData` payload (pydantic) and then performs three
sequential persistence phases, each ended by its own commit:

1. insert a `User` row (email is unique),
2. insert a `User_Tool` row with `tool_id = 1` referencing the new user,
3. insert one `Answer` row per value of the seven step arrays, with
   `question_id = (step - 2) * 9 + index + 1`, all committed at once.

We embed the handler as a pure state transformer over an explicit
database value.  Commit failures of the storage layer are modelled by a
boolean oracle `ck : Nat → Bool` giving the outcome of the n-th commit
of the request (0 = user, 1 = user_tool, 2 = answers); a failed commit
rolls the pending rows of that phase back and surfaces an error, leaving
the rows of the earlier commits durable, exactly as in the source where
each phase has its own `await db.commit()`.
-/

/-- A row of the `users` table (class `User` in `src/main.py`).
`user_id` is the autoincrement primary key. -/
structure UserRow where
  user_id : Nat
  first_name : String
  last_name : String
  telephone_number : String
  email : String
  professional_status : String
  industry : String
  organization : String
  job_level : String
  department : String
  location : String
deriving DecidableEq

/-- A row of the `user_tools` table (class `User_Tool`).  The start and
completion dates are server-side defaults and carry no information from
the request, so they are omitted from the embedding. -/
structure UserToolRow where
  user_tool_id : Nat
  user_id : Nat
  tool_id : Nat
deriving DecidableEq

/-- A row of the `answers` table (class `Answer`). -/
structure AnswerRow where
  answer_user_tool_id : Nat
  question_id : Nat
  answer_text : String
deriving DecidableEq

/-- The database state touched by the handler: the three tables it
writes, plus the autoincrement counters that produce the generated
identifiers. -/
structure DB where
  users : List UserRow
  user_tools : List UserToolRow
  answers : List AnswerRow
  nextUserId : Nat
  nextUserToolId : Nat
deriving DecidableEq

/-- The incoming payload (pydantic model `FormData`).  Field types are
those declared in the source: plain strings, an email string, and seven
integer arrays. -/
structure FormData where
  fullName : String
  telephoneNumber : String
  emailAddress : String
  professionalStatus : String
  industry : String
  organisation : String
  jobLevel : String
  department : String
  location : String
  step2Data : List Int
  step3Data : List Int
  step4Data : List Int
  step5Data : List Int
  step6Data : List Int
  step7Data : List Int
  step8Data : List Int
deriving DecidableEq

/-- The failure modes a request can surface, one per distinct exception
path of the source:
* `validationError` — pydantic rejects the payload before the handler
  body runs (in the source: `EmailStr` fails; a 422 response);
* `valueError` — the tuple unpacking
  `first_name, last_name = form_data.fullName.split(' ', 1)` raises a
  Python `ValueError` inside the handler (a 500 response);
* `uniqueConstraintError` — the commit of the `User` insert violates the
  unique constraint on `email`;
* `persistenceError` — a commit fails for storage reasons. -/
inductive HandlerError where
  | validationError
  | valueError
  | uniqueConstraintError
  | persistenceError
deriving DecidableEq

/-- Scan a character list for the first space.  `none` when no space
occurs; otherwise the characters strictly before the first space and
the characters strictly after it. -/
def breakAtSpace : List Char → Option (List Char × List Char)
  | [] => none
  | c :: cs =>
    if c = ' ' then some ([], cs)
    else
      match breakAtSpace cs with
      | none => none
      | some (pre, post) => some (c :: pre, post)

/-- Python's `s.split(' ', 1)`: at most one split, at the first space.
Returns `[s]` when `s` has no space, and the two parts otherwise. -/
def pySplitSpace1 (s : String) : List String :=
  match breakAtSpace s.data with
  | none => [s]
  | some (pre, post) => [String.mk pre, String.mk post]

/-- Modelled from the spec: `emailAddress` must be a syntactically valid
email address (pydantic `EmailStr`; the validating code is an external
library, not part of this repository).  Simplified syntactic check:
exactly one `@` with non-empty parts around it, a dot in the domain, and
no spaces.  Only its value on concrete well-formed addresses matters to
the claims below. -/
def validEmail (s : String) : Bool :=
  match breakAtSpace s.data with
  | some _ => false
  | none =>
    match s.data.splitOn '@' with
    | [loc, dom] => !loc.isEmpty && !dom.isEmpty && dom.contains '.'
    | _ => false

/-- Pydantic validation of the `FormData` model.  The structure already
fixes the field types; the only value-level constraint declared in the
source is `EmailStr` on `emailAddress`.  In particular the seven plain
string fields are `str` and carry no non-emptiness check. -/
def validateFormData (fd : FormData) : Bool :=
  validEmail fd.emailAddress

/-- The fixed `tool_id=1` used by the `User_Tool` insert. -/
def toolIdConstant : Nat := 1

/-- `getattr(form_data, f"step{step}Data")` of the answer loop. -/
def stepDataOf (fd : FormData) : Nat → List Int
  | 2 => fd.step2Data
  | 3 => fd.step3Data
  | 4 => fd.step4Data
  | 5 => fd.step5Data
  | 6 => fd.step6Data
  | 7 => fd.step7Data
  | 8 => fd.step8Data
  | _ => []

/-- The inner answer loop for one step: one `Answer` row per value, with
`question_id = (step - 2) * 9 + index + 1` and `answer_text` the decimal
string of the value.  The counter `i` is the 0-based `enumerate` index. -/
def stepAnswers (utid step : Nat) : Nat → List Int → List AnswerRow
  | _, [] => []
  | i, v :: rest =>
    { answer_user_tool_id := utid
      question_id := (step - 2) * 9 + i + 1
      answer_text := toString v } :: stepAnswers utid step (i + 1) rest

/-- The answer rows produced by `for step in range(2, 9)` over the seven
step arrays. -/
def allAnswers (utid : Nat) (fd : FormData) : List AnswerRow :=
  (List.range' 2 7).flatMap fun step => stepAnswers utid step 0 (stepDataOf fd step)

/-- The `User` row built from the payload: names from the split, the
generated id, and the remaining fields copied verbatim. -/
def mkUserRow (uid : Nat) (first last : String) (fd : FormData) : UserRow :=
  { user_id := uid
    first_name := first
    last_name := last
    telephone_number := fd.telephoneNumber
    email := fd.emailAddress
    professional_status := fd.professionalStatus
    industry := fd.industry
    organization := fd.organisation
    job_level := fd.jobLevel
    department := fd.department
    location := fd.location }

/-- The handler body `submit_form` of `src/main.py`.  Returns the durable
database state after the request together with the outcome: the response
body string on success, the surfaced error otherwise.  A failed commit
discards the pending rows of its own phase only. -/
def submitForm (fd : FormData) (db : DB) (ck : Nat → Bool) :
    DB × Except HandlerError String :=
  match pySplitSpace1 fd.fullName with
  | [first_name, last_name] =>
    if db.users.any (fun u => u.email == fd.emailAddress) then
      (db, Except.error HandlerError.uniqueConstraintError)
    else if ck 0 = false then
      (db, Except.error HandlerError.persistenceError)
    else
      let uid := db.nextUserId
      let db1 : DB :=
        { db with
          users := db.users ++ [mkUserRow uid first_name last_name fd]
          nextUserId := uid + 1 }
      if ck 1 = false then
        (db1, Except.error HandlerError.persistenceError)
      else
        let utid := db.nextUserToolId
        let db2 : DB :=
          { db1 with
            user_tools := db1.user_tools ++
              [{ user_tool_id := utid, user_id := uid, tool_id := toolIdConstant }]
            nextUserToolId := utid + 1 }
        if ck 2 = false then
          (db2, Except.error HandlerError.persistenceError)
        else
          let db3 : DB := { db2 with answers := db2.answers ++ allAnswers utid fd }
          (db3, Except.ok "Form submitted successfully")
  | _ => (db, Except.error HandlerError.valueError)

/-- One request end to end: pydantic validation of the payload, then the
handler body.  A validation failure reaches no persistence code. -/
def handleRequest (fd : FormData) (db : DB) (ck : Nat → Bool) :
    DB × Except HandlerError String :=
  if validateFormData fd then submitForm fd db ck
  else (db, Except.error HandlerError.validationError)

/-- The database state after a fully successful request. -/
def finalState (fd : FormData) (db : DB) (first last : String) : DB :=
  { users := db.users ++ [mkUserRow db.nextUserId first last fd]
    user_tools := db.user_tools ++
      [{ user_tool_id := db.nextUserToolId, user_id := db.nextUserId,
         tool_id := toolIdConstant }]
    answers := db.answers ++ allAnswers db.nextUserToolId fd
    nextUserId := db.nextUserId + 1
    nextUserToolId := db.nextUserToolId + 1 }

/-- An empty database. -/
def db0 : DB :=
  { users := [], user_tools := [], answers := [], nextUserId := 1, nextUserToolId := 1 }

/-- A commit oracle under which every commit succeeds. -/
def ckTrue : Nat → Bool := fun _ => true

/-! ## Helper lemmas -/

theorem breakAtSpace_of_no_space :
    ∀ (l : List Char), ' ' ∉ l → breakAtSpace l = none := by
  intro l
  induction l with
  | nil => intro _; rfl
  | cons c cs ih =>
    intro h
    have hc : ¬ c = ' ' := fun hc => h (by simp [hc])
    have hcs : ' ' ∉ cs := fun hm => h (List.mem_cons_of_mem c hm)
    simp [breakAtSpace, fun hc2 => hc (by simpa using hc2), ih hcs]

theorem breakAtSpace_first :
    ∀ (pre post : List Char), ' ' ∉ pre →
      breakAtSpace (pre ++ ' ' :: post) = some (pre, post) := by
  intro pre
  induction pre with
  | nil => intro post _; simp [breakAtSpace]
  | cons c cs ih =>
    intro post h
    have hc : ¬ c = ' ' := fun hc => h (by simp [hc])
    have hcs : ' ' ∉ cs := fun hm => h (List.mem_cons_of_mem c hm)
    simp [breakAtSpace, hc, ih post hcs]

theorem breakAtSpace_isSome_of_mem :
    ∀ (l : List Char), ' ' ∈ l → ∃ pre post, breakAtSpace l = some (pre, post) := by
  intro l
  induction l with
  | nil => intro h; exact absurd h (List.not_mem_nil ' ')
  | cons c cs ih =>
    intro h
    by_cases hc : c = ' '
    · exact ⟨[], cs, by simp [breakAtSpace, hc]⟩
    · have hm : ' ' ∈ cs := by
        rcases List.mem_cons.mp h with h1 | h1
        · exact absurd h1.symm hc
        · exact h1
      obtain ⟨pre, post, hpp⟩ := ih hm
      exact ⟨c :: pre, post, by simp [breakAtSpace, hc, hpp]⟩

theorem stepAnswers_length (utid step : Nat) :
    ∀ (i : Nat) (data : List Int),
      (stepAnswers utid step i data).length = data.length := by
  intro i data
  induction data generalizing i with
  | nil => rfl
  | cons v rest ih => simp [stepAnswers, ih]

theorem stepAnswers_get_mem (utid step : Nat) :
    ∀ (data : List Int) (i j : Nat) (h : j < data.length),
      ({ answer_user_tool_id := utid,
         question_id := (step - 2) * 9 + (i + j) + 1,
         answer_text := toString (data.get ⟨j, h⟩) } : AnswerRow)
        ∈ stepAnswers utid step i data := by
  intro data
  induction data with
  | nil => intro i j h; exact absurd h (Nat.not_lt_zero j)
  | cons v rest ih =>
    intro i j h
    cases j with
    | zero => simp [stepAnswers]
    | succ j =>
      have hj : j < rest.length := Nat.lt_of_succ_lt_succ h
      have hmem := ih (i + 1) j hj
      have harith : i + 1 + j = i + (j + 1) := by omega
      rw [harith] at hmem
      simp only [stepAnswers, List.mem_cons]
      right
      simpa using hmem

theorem mem_stepAnswers (utid step : Nat) :
    ∀ (data : List Int) (i : Nat) (a : AnswerRow),
      a ∈ stepAnswers utid step i data →
        a.answer_user_tool_id = utid ∧ ∃ v ∈ data, a.answer_text = toString v := by
  intro data
  induction data with
  | nil => intro i a ha; simp [stepAnswers] at ha
  | cons v rest ih =>
    intro i a ha
    simp only [stepAnswers, List.mem_cons] at ha
    rcases ha with rfl | ha
    · exact ⟨rfl, v, by simp, rfl⟩
    · obtain ⟨h1, w, hw, h2⟩ := ih (i + 1) a ha
      exact ⟨h1, w, by simp [hw], h2⟩

theorem allAnswers_eq (utid : Nat) (fd : FormData) :
    allAnswers utid fd =
      stepAnswers utid 2 0 fd.step2Data ++ (stepAnswers utid 3 0 fd.step3Data ++
      (stepAnswers utid 4 0 fd.step4Data ++ (stepAnswers utid 5 0 fd.step5Data ++
      (stepAnswers utid 6 0 fd.step6Data ++ (stepAnswers utid 7 0 fd.step7Data ++
      stepAnswers utid 8 0 fd.step8Data))))) := by
  have hr : List.range' 2 7 = [2, 3, 4, 5, 6, 7, 8] := rfl
  simp [allAnswers, hr, stepDataOf]

theorem handleRequest_complete (fd : FormData) (db : DB) (ck : Nat → Bool)
    (pre post : List Char)
    (hsp : breakAtSpace fd.fullName.data = some (pre, post))
    (hval : validateFormData fd = true)
    (hdup : db.users.any (fun u => u.email == fd.emailAddress) = false)
    (h0 : ck 0 = true) (h1 : ck 1 = true) (h2 : ck 2 = true) :
    handleRequest fd db ck =
      (finalState fd db (String.mk pre) (String.mk post),
       Except.ok "Form submitted successfully") := by
  unfold handleRequest submitForm pySplitSpace1
  rw [hsp]
  simp [hval, hdup, h0, h1, h2, finalState]

theorem handleRequest_ok_eq (fd : FormData) (db : DB) (ck : Nat → Bool) (m : String)
    (hok : (handleRequest fd db ck).2 = Except.ok m) :
    ∃ pre post, breakAtSpace fd.fullName.data = some (pre, post) ∧
      handleRequest fd db ck =
        (finalState fd db (String.mk pre) (String.mk post),
         Except.ok "Form submitted successfully") := by
  by_cases hval : validateFormData fd = true
  · rcases hbr : breakAtSpace fd.fullName.data with _ | ⟨pre, post⟩
    · exfalso
      unfold handleRequest submitForm pySplitSpace1 at hok
      rw [hbr] at hok
      simp [hval] at hok
    · refine ⟨pre, post, rfl, ?_⟩
      by_cases hdup : db.users.any (fun u => u.email == fd.emailAddress) = true
      · exfalso
        unfold handleRequest submitForm pySplitSpace1 at hok
        rw [hbr] at hok
        simp [hval, hdup] at hok
      · rw [Bool.not_eq_true] at hdup
        by_cases h0 : ck 0 = true
        · by_cases h1 : ck 1 = true
          · by_cases h2 : ck 2 = true
            · exact handleRequest_complete fd db ck pre post hbr hval hdup h0 h1 h2
            · exfalso
              rw [Bool.not_eq_true] at h2
              unfold handleRequest submitForm pySplitSpace1 at hok
              rw [hbr] at hok
              simp [hval, hdup, h0, h1, h2] at hok
          · exfalso
            rw [Bool.not_eq_true] at h1
            unfold handleRequest submitForm pySplitSpace1 at hok
            rw [hbr] at hok
            simp [hval, hdup, h0, h1] at hok
        · exfalso
          rw [Bool.not_eq_true] at h0
          unfold handleRequest submitForm pySplitSpace1 at hok
          rw [hbr] at hok
          simp [hval, hdup, h0] at hok
  · exfalso
    rw [Bool.not_eq_true] at hval
    unfold handleRequest at hok
    simp [hval] at hok

/-! ## Concrete inputs used by witnesses and counterexamples -/

/-- A well-formed submission: `fullName = "Jane Doe"`, a valid email,
`step2Data = [1, 2]`, all other step arrays empty (the end-to-end
scenario of the spec). -/
def fdW : FormData :=
  { fullName := "Jane Doe"
    telephoneNumber := "0712345678"
    emailAddress := "jane@example.com"
    professionalStatus := "Employed"
    industry := "Tech"
    organisation := "Acme"
    jobLevel := "Senior"
    department := "Engineering"
    location := "Nairobi"
    step2Data := [1, 2]
    step3Data := []
    step4Data := []
    step5Data := []
    step6Data := []
    step7Data := []
    step8Data := [] }

/-! ## Claims -/

/-- C7: for every submission that completes all three persistence phases
without error, the handler returns exactly the body
`{"message": "Form submitted successfully"}`. -/
theorem success_response_message (fd : FormData) (db : DB) (ck : Nat → Bool)
    (m : String) (hok : (handleRequest fd db ck).2 = Except.ok m) :
    m = "Form submitted successfully" := by
  obtain ⟨pre, post, _, heq⟩ := handleRequest_ok_eq fd db ck m hok
  rw [heq] at hok
  exact (Except.ok.inj hok).symm

/-- Witness for C7 at the concrete submission `fdW` on an empty database. -/
theorem success_response_message_witness :
    "Form submitted successfully" = "Form submitted successfully" :=
  success_response_message fdW db0 ckTrue "Form submitted successfully" (by rfl)

/-- C1: for every submission accepted by the handler, the Answer row
created for the value at step `s` (2..8) and 0-based position `i` in that
step's array has `question_id = (s - 2) * 9 + i + 1`, for all `s` and
`i`, regardless of the length of the step arrays. -/
theorem answer_question_id_formula (fd : FormData) (db : DB) (ck : Nat → Bool)
    (m : String) (hok : (handleRequest fd db ck).2 = Except.ok m)
    (s i : Nat) (hs2 : 2 ≤ s) (hs8 : s ≤ 8) (hi : i < (stepDataOf fd s).length) :
    ({ answer_user_tool_id := db.nextUserToolId,
       question_id := (s - 2) * 9 + i + 1,
       answer_text := toString ((stepDataOf fd s).get ⟨i, hi⟩) } : AnswerRow)
      ∈ (handleRequest fd db ck).1.answers := by
  obtain ⟨pre, post, _, heq⟩ := handleRequest_ok_eq fd db ck m hok
  rw [heq]
  have hmem := stepAnswers_get_mem db.nextUserToolId s (stepDataOf fd s) 0 i hi
  rw [Nat.zero_add] at hmem
  have hall : ({ answer_user_tool_id := db.nextUserToolId,
                 question_id := (s - 2) * 9 + i + 1,
                 answer_text := toString ((stepDataOf fd s).get ⟨i, hi⟩) } : AnswerRow)
      ∈ allAnswers db.nextUserToolId fd := by
    rw [allAnswers_eq]
    interval_cases s
    · exact List.mem_append_left _ hmem
    · exact List.mem_append_right _ (List.mem_append_left _ hmem)
    · exact List.mem_append_right _ (List.mem_append_right _ (List.mem_append_left _ hmem))
    · exact List.mem_append_right _ (List.mem_append_right _ (List.mem_append_right _
        (List.mem_append_left _ hmem)))
    · exact List.mem_append_right _ (List.mem_append_right _ (List.mem_append_right _
        (List.mem_append_right _ (List.mem_append_left _ hmem))))
    · exact List.mem_append_right _ (List.mem_append_right _ (List.mem_append_right _
        (List.mem_append_right _ (List.mem_append_right _ (List.mem_append_left _ hmem)))))
    · exact List.mem_append_right _ (List.mem_append_right _ (List.mem_append_right _
        (List.mem_append_right _ (List.mem_append_right _ (List.mem_append_right _ hmem)))))
  exact List.mem_append_right _ hall

/-- Witness for C1 at `fdW`, step 2, position 0: the created row is
`question_id = 1`, `answer_text = "1"`. -/
theorem answer_question_id_formula_witness :
    ({ answer_user_tool_id := 1, question_id := 1, answer_text := "1" } : AnswerRow)
      ∈ (handleRequest fdW db0 ckTrue).1.answers :=
  answer_question_id_formula fdW db0 ckTrue "Form submitted successfully" (by rfl)
    2 0 (by decide) (by decide) (by decide)

/-- C2: for every valid submission, the handler creates exactly one User
row, exactly one User_Tool row whose `tool_id` is the constant 1 and
whose `user_id` is the newly generated user identifier, and exactly
(sum of the lengths of the seven step arrays) Answer rows, each Answer's
`answer_text` being the decimal string form of the submitted integer
value. -/
theorem submit_creates_rows (fd : FormData) (db : DB) (ck : Nat → Bool)
    (m : String) (hok : (handleRequest fd db ck).2 = Except.ok m) :
    (handleRequest fd db ck).1.users.length = db.users.length + 1 ∧
    (handleRequest fd db ck).1.user_tools =
      db.user_tools ++
        [{ user_tool_id := db.nextUserToolId, user_id := db.nextUserId,
           tool_id := 1 }] ∧
    (handleRequest fd db ck).1.answers.length =
      db.answers.length +
        (fd.step2Data.length + fd.step3Data.length + fd.step4Data.length +
         fd.step5Data.length + fd.step6Data.length + fd.step7Data.length +
         fd.step8Data.length) ∧
    ∀ a ∈ (handleRequest fd db ck).1.answers.drop db.answers.length,
      a.answer_user_tool_id = db.nextUserToolId ∧
        ∃ s, 2 ≤ s ∧ s ≤ 8 ∧ ∃ v ∈ stepDataOf fd s, a.answer_text = toString v := by
  obtain ⟨pre, post, _, heq⟩ := handleRequest_ok_eq fd db ck m hok
  rw [heq]
  refine ⟨by simp [finalState], by simp [finalState, toolIdConstant], ?_, ?_⟩
  · simp [finalState, allAnswers_eq, stepAnswers_length]
    omega
  · intro a ha
    have hdrop : (finalState fd db (String.mk pre) (String.mk post)).answers.drop
        db.answers.length = allAnswers db.nextUserToolId fd := by
      simp [finalState, List.drop_left]
    rw [show (finalState fd db (String.mk pre) (String.mk post),
        (Except.ok "Form submitted successfully" : Except HandlerError String)).1
      = finalState fd db (String.mk pre) (String.mk post) from rfl, hdrop] at ha
    rw [allAnswers_eq] at ha
    simp only [List.mem_append] at ha
    rcases ha with h | h | h | h | h | h | h
    · obtain ⟨h1, v, hv, h2⟩ := mem_stepAnswers _ 2 _ 0 a h
      exact ⟨h1, 2, by omega, by omega, v, hv, h2⟩
    · obtain ⟨h1, v, hv, h2⟩ := mem_stepAnswers _ 3 _ 0 a h
      exact ⟨h1, 3, by omega, by omega, v, hv, h2⟩
    · obtain ⟨h1, v, hv, h2⟩ := mem_stepAnswers _ 4 _ 0 a h
      exact ⟨h1, 4, by omega, by omega, v, hv, h2⟩
    · obtain ⟨h1, v, hv, h2⟩ := mem_stepAnswers _ 5 _ 0 a h
      exact ⟨h1, 5, by omega, by omega, v, hv, h2⟩
    · obtain ⟨h1, v, hv, h2⟩ := mem_stepAnswers _ 6 _ 0 a h
      exact ⟨h1, 6, by omega, by omega, v, hv, h2⟩
    · obtain ⟨h1, v, hv, h2⟩ := mem_stepAnswers _ 7 _ 0 a h
      exact ⟨h1, 7, by omega, by omega, v, hv, h2⟩
    · obtain ⟨h1, v, hv, h2⟩ := mem_stepAnswers _ 8 _ 0 a h
      exact ⟨h1, 8, by omega, by omega, v, hv, h2⟩

/-- Witness for C2 at `fdW` on an empty database. -/
theorem submit_creates_rows_witness :
    (handleRequest fdW db0 ckTrue).1.users.length = db0.users.length + 1 ∧
    (handleRequest fdW db0 ckTrue).1.user_tools =
      db0.user_tools ++
        [{ user_tool_id := db0.nextUserToolId, user_id := db0.nextUserId,
           tool_id := 1 }] ∧
    (handleRequest fdW db0 ckTrue).1.answers.length =
      db0.answers.length +
        (fdW.step2Data.length + fdW.step3Data.length + fdW.step4Data.length +
         fdW.step5Data.length + fdW.step6Data.length + fdW.step7Data.length +
         fdW.step8Data.length) ∧
    ∀ a ∈ (handleRequest fdW db0 ckTrue).1.answers.drop db0.answers.length,
      a.answer_user_tool_id = db0.nextUserToolId ∧
        ∃ s, 2 ≤ s ∧ s ≤ 8 ∧ ∃ v ∈ stepDataOf fdW s, a.answer_text = toString v :=
  submit_creates_rows fdW db0 ckTrue "Form submitted successfully" (by rfl)

/-- C5: for every `fullName` containing at least one space, the stored
`first_name` is the text before the first space and the stored
`last_name` is all text after the first space, including any additional
spaces. -/
theorem fullName_split_at_first_space (fd : FormData) (db : DB) (ck : Nat → Bool)
    (m : String) (hok : (handleRequest fd db ck).2 = Except.ok m)
    (pre post : List Char) (hpre : ' ' ∉ pre)
    (hname : fd.fullName.data = pre ++ ' ' :: post) :
    (handleRequest fd db ck).1.users =
      db.users ++ [mkUserRow db.nextUserId (String.mk pre) (String.mk post) fd] := by
  obtain ⟨pre2, post2, hbr, heq⟩ := handleRequest_ok_eq fd db ck m hok
  rw [hname, breakAtSpace_first pre post hpre] at hbr
  obtain ⟨h1, h2⟩ : pre2 = pre ∧ post2 = post := by
    have := Option.some.inj hbr
    exact ⟨congrArg Prod.fst this.symm, congrArg Prod.snd this.symm⟩
  subst h1
  subst h2
  rw [heq]
  simp [finalState]

/-- Witness for C5: `fdW.fullName = "Jane Doe"` splits into `"Jane"` and
`"Doe"`. -/
theorem fullName_split_at_first_space_witness :
    (handleRequest fdW db0 ckTrue).1.users =
      db0.users ++ [mkUserRow db0.nextUserId (String.mk "Jane".data)
        (String.mk "Doe".data) fdW] :=
  fullName_split_at_first_space fdW db0 ckTrue "Form submitted successfully" (by rfl)
    "Jane".data "Doe".data (by decide) (by decide)

/-- C6: for every submission whose `emailAddress` equals the email of an
already-persisted User (the payload being otherwise processable: it
passes validation and the name unpacking), the request fails with the
unique-constraint violation of the User insert and the database is
unchanged — zero User_Tool rows and zero Answer rows for that attempt. -/
theorem duplicate_email_rejected (fd : FormData) (db : DB) (ck : Nat → Bool)
    (hval : validateFormData fd = true)
    (hsp : ' ' ∈ fd.fullName.data)
    (hdup : ∃ u ∈ db.users, u.email = fd.emailAddress) :
    handleRequest fd db ck = (db, Except.error HandlerError.uniqueConstraintError) := by
  obtain ⟨pre, post, hbr⟩ := breakAtSpace_isSome_of_mem _ hsp
  have hany : db.users.any (fun u => u.email == fd.emailAddress) = true := by
    obtain ⟨u, hu, he⟩ := hdup
    exact List.any_eq_true.mpr ⟨u, hu, by simp [he]⟩
  unfold handleRequest submitForm pySplitSpace1
  rw [hbr]
  simp [hval, hany]

/-- A database already holding a user with `fdW`'s email address. -/
def dbDup : DB :=
  { users := [mkUserRow 1 "Old" "User" fdW]
    user_tools := []
    answers := []
    nextUserId := 2
    nextUserToolId := 1 }

/-- Witness for C6: resubmitting `fdW`'s email against `dbDup` is
rejected and writes nothing. -/
theorem duplicate_email_rejected_witness :
    handleRequest fdW dbDup ckTrue =
      (dbDup, Except.error HandlerError.uniqueConstraintError) :=
  duplicate_email_rejected fdW dbDup ckTrue (by rfl) (by decide)
    ⟨mkUserRow 1 "Old" "User" fdW, by simp [dbDup], rfl⟩

/-- C8: all Answer rows of one request are committed by the single
commit after the loop over the seven steps: if that commit fails, zero
Answer rows from the request are durable, while the earlier User and
User_Tool commits remain in place. -/
theorem answers_batch_atomic (fd : FormData) (db : DB) (ck : Nat → Bool)
    (hval : validateFormData fd = true)
    (hsp : ' ' ∈ fd.fullName.data)
    (hdup : db.users.any (fun u => u.email == fd.emailAddress) = false)
    (h0 : ck 0 = true) (h1 : ck 1 = true) (h2 : ck 2 = false) :
    (handleRequest fd db ck).1.answers = db.answers ∧
    (handleRequest fd db ck).1.users.length = db.users.length + 1 ∧
    (handleRequest fd db ck).1.user_tools.length = db.user_tools.length + 1 ∧
    (handleRequest fd db ck).2 = Except.error HandlerError.persistenceError := by
  obtain ⟨pre, post, hbr⟩ := breakAtSpace_isSome_of_mem _ hsp
  unfold handleRequest submitForm pySplitSpace1
  rw [hbr]
  simp [hval, hdup, h0, h1, h2]

/-- A commit oracle whose third commit (the Answer batch) fails. -/
def ckFail2 : Nat → Bool := fun n => !(n == 2)

/-- Witness for C8: submitting `fdW` under `ckFail2` leaves the new User
and User_Tool rows but no Answer row. -/
theorem answers_batch_atomic_witness :
    (handleRequest fdW db0 ckFail2).1.answers = db0.answers ∧
    (handleRequest fdW db0 ckFail2).1.users.length = db0.users.length + 1 ∧
    (handleRequest fdW db0 ckFail2).1.user_tools.length = db0.user_tools.length + 1 ∧
    (handleRequest fdW db0 ckFail2).2 = Except.error HandlerError.persistenceError :=
  answers_batch_atomic fdW db0 ckFail2 (by rfl) (by decide) (by rfl)
    (by rfl) (by rfl) (by rfl)

/-- A submission whose `fullName` has no space, all other fields valid. -/
def fd3 : FormData := { fdW with fullName := "JaneDoe" }

/-- C3 counterexample: the submission `fd3` has a space-free `fullName`
and passes pydantic validation, so the handler body runs and the tuple
unpacking of the name raises a `ValueError`, not a `ValidationError`:
the request does not fail with a `ValidationError` as claimed. -/
theorem no_space_not_validation_error :
    (' ' ∈ fd3.fullName.data → False) ∧
    (handleRequest fd3 db0 ckTrue).2 = Except.error HandlerError.valueError ∧
    HandlerError.valueError ≠ HandlerError.validationError :=
  ⟨by decide, by rfl, by decide⟩

/-- C3 (amended): for every submission whose `fullName` contains no
space, the request fails before any persistence and creates zero rows;
when the payload passes field validation, the failure is the `ValueError`
raised by the name unpacking inside the handler (surfaced as a server
error), not a pydantic `ValidationError`. -/
theorem no_space_fails_before_persistence (fd : FormData) (db : DB) (ck : Nat → Bool)
    (h : ' ' ∉ fd.fullName.data) :
    (handleRequest fd db ck).1 = db ∧
    (validateFormData fd = true →
      (handleRequest fd db ck).2 = Except.error HandlerError.valueError) := by
  have hbr := breakAtSpace_of_no_space _ h
  by_cases hval : validateFormData fd = true
  · unfold handleRequest submitForm pySplitSpace1
    rw [hbr]
    simp [hval]
  · rw [Bool.not_eq_true] at hval
    unfold handleRequest
    simp [hval]

/-- Witness for the amended C3 at the concrete no-space submission. -/
theorem no_space_fails_before_persistence_witness :
    (handleRequest fd3 db0 ckTrue).1 = db0 ∧
    (validateFormData fd3 = true →
      (handleRequest fd3 db0 ckTrue).2 = Except.error HandlerError.valueError) :=
  no_space_fails_before_persistence fd3 db0 ckTrue (by decide)

/-- A submission with an empty `telephoneNumber`, all other fields valid. -/
def fd4 : FormData := { fdW with telephoneNumber := "" }

/-- C4 counterexample: the submission `fd4` has an empty
`telephoneNumber`, yet validation accepts it and the handler persists a
User row — the empty string is not rejected. -/
theorem empty_phone_accepted :
    fd4.telephoneNumber = "" ∧
    validateFormData fd4 = true ∧
    (handleRequest fd4 db0 ckTrue).2 = Except.ok "Form submitted successfully" ∧
    (handleRequest fd4 db0 ckTrue).1.users.length = 1 :=
  ⟨rfl, rfl, rfl, rfl⟩

/-- C4 (amended): the seven profile fields are typed as plain strings and
carry no non-emptiness check: a submission with an empty string in any of
`telephoneNumber`, `professionalStatus`, `industry`, `organisation`,
`jobLevel`, `department`, or `location` passes validation and, when it is
otherwise processable, is persisted. -/
theorem empty_fields_not_rejected (fd : FormData) (db : DB) (ck : Nat → Bool)
    (h : fd.telephoneNumber = "" ∨ fd.professionalStatus = "" ∨ fd.industry = "" ∨
         fd.organisation = "" ∨ fd.jobLevel = "" ∨ fd.department = "" ∨
         fd.location = "")
    (hval : validEmail fd.emailAddress = true)
    (hsp : ' ' ∈ fd.fullName.data)
    (hdup : db.users.any (fun u => u.email == fd.emailAddress) = false)
    (hck : ∀ n, ck n = true) :
    validateFormData fd = true ∧
    (handleRequest fd db ck).2 = Except.ok "Form submitted successfully" ∧
    (handleRequest fd db ck).1.users.length = db.users.length + 1 := by
  obtain ⟨pre, post, hbr⟩ := breakAtSpace_isSome_of_mem _ hsp
  have heq := handleRequest_complete fd db ck pre post hbr hval hdup
    (hck 0) (hck 1) (hck 2)
  rw [heq]
  exact ⟨hval, rfl, by simp [finalState]⟩

/-- Witness for the amended C4 at the concrete empty-phone submission. -/
theorem empty_fields_not_rejected_witness :
    validateFormData fd4 = true ∧
    (handleRequest fd4 db0 ckTrue).2 = Except.ok "Form submitted successfully" ∧
    (handleRequest fd4 db0 ckTrue).1.users.length = db0.users.length + 1 :=
  empty_fields_not_rejected fd4 db0 ckTrue (Or.inl rfl) (by rfl) (by decide)
    (by rfl) (fun _ => rfl)

/-- A submission whose `fullName` starts with a space. -/
def fd9 : FormData := { fdW with fullName := " Jane Doe" }

/-- C9: an accepted input can store an empty `first_name`: the fullName
`" Jane Doe"` passes the space check, the request succeeds, and the
stored user has `first_name = ""` and `last_name = "Jane Doe"`. -/
theorem leading_space_empty_first_name :
    (handleRequest fd9 db0 ckTrue).2 = Except.ok "Form submitted successfully" ∧
    (handleRequest fd9 db0 ckTrue).1.users.map
      (fun u => (u.first_name, u.last_name)) = [("", "Jane Doe")] :=
  ⟨rfl, rfl⟩

/-- A submission with ten values at step 2 and one value at step 3. -/
def fd10 : FormData :=
  { fdW with step2Data := [1, 2, 3, 4, 5, 6, 7, 8, 9, 10], step3Data := [1] }

/-- C10: the mapping `(step, index) → (step - 2) * 9 + index + 1` is not
injective over arbitrary array lengths: for `fd10`, whose step-2 array
has ten entries, the accepted request creates two distinct Answer rows —
step 2 index 9 (list position 9) and step 3 index 0 (list position 10) —
that both reference `question_id = 10`. -/
theorem question_id_collision :
    (handleRequest fd10 db0 ckTrue).2 = Except.ok "Form submitted successfully" ∧
    ((handleRequest fd10 db0 ckTrue).1.answers[9]?).map AnswerRow.question_id
      = some 10 ∧
    ((handleRequest fd10 db0 ckTrue).1.answers[10]?).map AnswerRow.question_id
      = some 10 ∧
    (handleRequest fd10 db0 ckTrue).1.answers[9]? ≠
      (handleRequest fd10 db0 ckTrue).1.answers[10]? :=
  ⟨rfl, rfl, rfl, by decide⟩
